import Mathlib

/-!
Shallow embedding of `src/minkernel/hals/halfxs/mips/jxsysint.c`, the HAL
enable/disable system interrupt, interrupt-vector resolution and
interprocessor-interrupt request routines of a MIPS Jazz system.

Machine integers are modelled as `Nat` with explicit reduction modulo the
type width where overflow or truncation can occur: `ULONG` is 32 bits,
`USHORT` is 16 bits, `KIRQL` (`UCHAR`) is 8 bits.  The platform numeric
constants (`DEVICE_VECTORS`, `MAXIMUM_BUILTIN_VECTOR`, `EISA_VECTORS`,
`MAXIMUM_EISA_VECTOR`, `EISA_DEVICE_LEVEL`, `HalpEisaBusAffinity`) come
from headers that are not part of the repository slice, so every
definition is parameterised by them; theorems hold for every choice of
constants satisfying the stated platform hypotheses, and witnesses use one
representative instantiation.

Side effects are made explicit: the mutable state carries the in-memory
mirror `HalpBuiltinInterruptEnable` together with traces of the register
writes and of the calls into the external EISA collaborator routines
(`HalpEnableEisaInterrupt`, `HalpDisableEisaInterrupt`) and the IPI
request register.  `KeRaiseIrql`/`KeLowerIrql` and the spinlock
acquire/release have no modelled observable effect: they only serialise
the body, which is embedded as an atomic state transformation.
-/

/-- Modelled from the spec: the bus interface type of a caller-supplied
Bus Interrupt Descriptor, `interface type ∈ {internal, bus-standard-A,
bus-standard-B, other}`; the C enumeration `INTERFACE_TYPE` is declared in
a header missing from the repository slice, so every unrecognised member
is represented by the `other` constructor. -/
inductive INTERFACE_TYPE where
  | Internal : INTERFACE_TYPE
  | Isa : INTERFACE_TYPE
  | Eisa : INTERFACE_TYPE
  | other : Nat → INTERFACE_TYPE
deriving DecidableEq

/-- The interrupt mode passed to `HalEnableSystemInterrupt`
(`KINTERRUPT_MODE`): level-sensitive or edge/latched. -/
inductive KINTERRUPT_MODE where
  | LevelSensitive : KINTERRUPT_MODE
  | Latched : KINTERRUPT_MODE
deriving DecidableEq

/-- Modelled from the spec: the platform-fixed numeric constants used by
`jxsysint.c`, declared in headers (`halp.h` and the platform definition
header) missing from the repository slice.  All definitions below take
them as a parameter. -/
structure HalConsts where
  DEVICE_VECTORS : Nat
  MAXIMUM_BUILTIN_VECTOR : Nat
  EISA_VECTORS : Nat
  MAXIMUM_EISA_VECTOR : Nat
  EISA_DEVICE_LEVEL : Nat
  HalpEisaBusAffinity : Nat
deriving DecidableEq

/-- One representative instantiation of the platform constants, used by
witnesses and counterexamples.  Modelled from the spec: a built-in range
whose bits fit the 16-bit Enable register, an EISA range disjoint from it,
and the level 2 → 9 remap inside the EISA level range. -/
def jazzConsts : HalConsts :=
  { DEVICE_VECTORS := 16
    MAXIMUM_BUILTIN_VECTOR := 26
    EISA_VECTORS := 32
    MAXIMUM_EISA_VECTOR := 16
    EISA_DEVICE_LEVEL := 5
    HalpEisaBusAffinity := 1 }

/-- The observable state of the module: the in-memory mirror
`HalpBuiltinInterruptEnable` (a `USHORT`, kept below `2 ^ 16`), the trace
of `USHORT` values written to the interrupt controller's Enable register
(most recent first), the traces of calls delegated to the external EISA
collaborator routines, and the trace of `ULONG` values written to the
interprocessor-interrupt request register. -/
structure HalState where
  HalpBuiltinInterruptEnable : Nat
  enableWrites : List Nat
  eisaEnableCalls : List (Nat × KINTERRUPT_MODE)
  eisaDisableCalls : List Nat
  ipiWrites : List Nat
deriving DecidableEq

/-- A convenient all-zero initial state for concrete evaluations. -/
def initState : HalState :=
  { HalpBuiltinInterruptEnable := 0
    enableWrites := []
    eisaEnableCalls := []
    eisaDisableCalls := []
    ipiWrites := [] }

/-- `HalDisableSystemInterrupt (Vector, Irql)` from `jxsysint.c` lines
53-93.  If `Vector` lies in the built-in range
`DEVICE_VECTORS + 1 ≤ Vector ≤ MAXIMUM_BUILTIN_VECTOR` the routine clears
bit `Vector - DEVICE_VECTORS - 1` of the `USHORT` mirror
(`HalpBuiltinInterruptEnable &= ~(1 << (Vector - DEVICE_VECTORS - 1))`,
embedded with the truncation to 16 bits that the `USHORT` store performs)
and writes the whole updated mirror to the Enable register.  If `Vector`
lies in the EISA range and `Irql = EISA_DEVICE_LEVEL` it delegates to
`HalpDisableEisaInterrupt`.  The two tests are independent `if`s, executed
in this order. -/
def HalDisableSystemInterrupt (c : HalConsts) (Vector Irql : Nat)
    (s : HalState) : HalState :=
  let s1 :=
    if c.DEVICE_VECTORS + 1 ≤ Vector ∧ Vector ≤ c.MAXIMUM_BUILTIN_VECTOR then
      let m := (s.HalpBuiltinInterruptEnable &&&
        ((2 ^ 16 - 1) ^^^ (1 <<< (Vector - c.DEVICE_VECTORS - 1)))) % 2 ^ 16
      { s with HalpBuiltinInterruptEnable := m, enableWrites := m :: s.enableWrites }
    else s
  if c.EISA_VECTORS ≤ Vector ∧ Vector < c.EISA_VECTORS + c.MAXIMUM_EISA_VECTOR ∧
      Irql = c.EISA_DEVICE_LEVEL then
    { s1 with eisaDisableCalls := Vector :: s1.eisaDisableCalls }
  else s1

/-- `HalEnableSystemInterrupt (Vector, Irql, InterruptMode)` from
`jxsysint.c` lines 123-163.  Same structure as the disable routine, with
the built-in branch setting the mask bit
(`HalpBuiltinInterruptEnable |= (1 << (Vector - DEVICE_VECTORS - 1))`,
truncated to 16 bits by the `USHORT` store) and the EISA branch delegating
to `HalpEnableEisaInterrupt (Vector, InterruptMode)`.  The routine always
returns `TRUE`. -/
def HalEnableSystemInterrupt (c : HalConsts) (Vector Irql : Nat)
    (InterruptMode : KINTERRUPT_MODE) (s : HalState) : Bool × HalState :=
  let s1 :=
    if c.DEVICE_VECTORS + 1 ≤ Vector ∧ Vector ≤ c.MAXIMUM_BUILTIN_VECTOR then
      let m := (s.HalpBuiltinInterruptEnable |||
        (1 <<< (Vector - c.DEVICE_VECTORS - 1))) % 2 ^ 16
      { s with HalpBuiltinInterruptEnable := m, enableWrites := m :: s.enableWrites }
    else s
  let s2 :=
    if c.EISA_VECTORS ≤ Vector ∧ Vector < c.EISA_VECTORS + c.MAXIMUM_EISA_VECTOR ∧
        Irql = c.EISA_DEVICE_LEVEL then
      { s1 with eisaEnableCalls := (Vector, InterruptMode) :: s1.eisaEnableCalls }
    else s1
  (true, s2)

/-- `HalGetInterruptVector` from `jxsysint.c` lines 165-262, returning the
triple `(system vector, *Irql, *Affinity)`.  The internal branch returns
the bus interrupt vector unchanged, stores the bus interrupt level into
the 8-bit `KIRQL` output (the cast `(KIRQL)BusInterruptLevel` truncates
modulo `2 ^ 8`) and affinity 1.  Unrecognised interface types return
`(0, 0, 0)`.  The Isa/Eisa branch fixes the IRQL to `EISA_DEVICE_LEVEL`,
remaps bus interrupt level 2 to 9, sets the platform EISA affinity and
returns the remapped level plus `EISA_VECTORS` in `ULONG` arithmetic. -/
def HalGetInterruptVector (c : HalConsts) (InterfaceType : INTERFACE_TYPE)
    (BusNumber BusInterruptLevel BusInterruptVector : Nat) : Nat × Nat × Nat :=
  if InterfaceType = INTERFACE_TYPE.Internal then
    (BusInterruptVector, BusInterruptLevel % 2 ^ 8, 1)
  else if InterfaceType ≠ INTERFACE_TYPE.Isa ∧ InterfaceType ≠ INTERFACE_TYPE.Eisa then
    (0, 0, 0)
  else
    let level := if BusInterruptLevel = 2 then 9 else BusInterruptLevel
    ((level + c.EISA_VECTORS) % 2 ^ 32, c.EISA_DEVICE_LEVEL, c.HalpEisaBusAffinity)

/-- `HalRequestIpi (Mask)` from `jxsysint.c` lines 264-304.  Under
`#if defined(_DUO_)` (here the `duoDefined` parameter) it performs the one
`WRITE_REGISTER_ULONG` of `Mask` to the IP-interrupt request register;
otherwise the routine body is empty. -/
def HalRequestIpi (duoDefined : Bool) (Mask : Nat) (s : HalState) : HalState :=
  if duoDefined then
    { s with ipiWrites := Mask :: s.ipiWrites }
  else s

/-! ## Vector Resolver claims -/

/-- Closed form of the resolver on the internal branch. -/
lemma HalGetInterruptVector_internal (c : HalConsts) (n L v : Nat) :
    HalGetInterruptVector c INTERFACE_TYPE.Internal n L v = (v, L % 2 ^ 8, 1) := by
  simp [HalGetInterruptVector]

/-- Closed form of the resolver on the Isa/Eisa branch. -/
lemma HalGetInterruptVector_eisa (c : HalConsts) (it : INTERFACE_TYPE) (n L v : Nat)
    (hit : it = INTERFACE_TYPE.Isa ∨ it = INTERFACE_TYPE.Eisa) :
    HalGetInterruptVector c it n L v =
      (((if L = 2 then 9 else L) + c.EISA_VECTORS) % 2 ^ 32,
        c.EISA_DEVICE_LEVEL, c.HalpEisaBusAffinity) := by
  rcases hit with h | h <;> subst h <;> simp [HalGetInterruptVector]

/-- C5 counterexample: with interface type Internal, bus interrupt level
300 and bus interrupt vector 7, the resolver does not return the triple
`(7, 300, 1)` the claim demands (the priority comes back as `300 % 256 = 44`
because of the `KIRQL` cast), so the claim as stated is false. -/
theorem internal_resolve_claim_false :
    HalGetInterruptVector jazzConsts INTERFACE_TYPE.Internal 0 300 7 ≠ (7, 300, 1) := by
  rw [HalGetInterruptVector_internal]
  decide

/-- C5 (amended): for interface type Internal the resolver returns the bus
interrupt vector unchanged as the system vector, the bus interrupt level
reduced modulo `2 ^ 8` (the `KIRQL` cast; unchanged exactly when it is
below 256) as the priority, and affinity 1 (processor 0 only). -/
theorem internal_resolve (c : HalConsts) (n L v : Nat) :
    HalGetInterruptVector c INTERFACE_TYPE.Internal n L v = (v, L % 2 ^ 8, 1) :=
  HalGetInterruptVector_internal c n L v

/-- C9: in the internal branch the priority output goes through the 8-bit
`KIRQL` cast, so every bus interrupt level of at least `2 ^ 8` comes back
reduced modulo `2 ^ 8`, which is not the supplied level. -/
theorem internal_irql_truncation (c : HalConsts) (n L v : Nat) (h : 2 ^ 8 ≤ L) :
    (HalGetInterruptVector c INTERFACE_TYPE.Internal n L v).2.1 = L % 2 ^ 8 ∧
      (HalGetInterruptVector c INTERFACE_TYPE.Internal n L v).2.1 ≠ L := by
  have hsnd : (HalGetInterruptVector c INTERFACE_TYPE.Internal n L v).2.1 = L % 2 ^ 8 := by
    rw [HalGetInterruptVector_internal]
  refine ⟨hsnd, ?_⟩
  rw [hsnd]
  have h256 : (2 : Nat) ^ 8 = 256 := rfl
  rw [h256] at h ⊢
  have hlt : L % 256 < 256 := Nat.mod_lt _ (by norm_num)
  omega

/-- C9 witness: at bus interrupt level 300 the returned priority is
`300 % 256 = 44`, not 300. -/
theorem internal_irql_truncation_witness :
    (2 : Nat) ^ 8 ≤ 300 ∧
      ((HalGetInterruptVector jazzConsts INTERFACE_TYPE.Internal 0 300 7).2.1 = 300 % 2 ^ 8 ∧
        (HalGetInterruptVector jazzConsts INTERFACE_TYPE.Internal 0 300 7).2.1 ≠ 300) :=
  ⟨by decide, internal_irql_truncation jazzConsts 0 300 7 (by decide)⟩

/-- C8: every interface type other than Internal, Isa and Eisa resolves to
system vector 0, priority 0 and empty affinity, independently of the bus
number, bus interrupt level and bus interrupt vector. -/
theorem unknown_interface_resolve (c : HalConsts) (it : INTERFACE_TYPE) (n L v : Nat)
    (h1 : it ≠ INTERFACE_TYPE.Internal) (h2 : it ≠ INTERFACE_TYPE.Isa)
    (h3 : it ≠ INTERFACE_TYPE.Eisa) :
    HalGetInterruptVector c it n L v = (0, 0, 0) := by
  simp [HalGetInterruptVector, h1, h2, h3]

/-- C8 witness: a MicroChannel-class interface type (an `other` member of
the enumeration) resolves to `(0, 0, 0)`. -/
theorem unknown_interface_resolve_witness :
    INTERFACE_TYPE.other 3 ≠ INTERFACE_TYPE.Internal ∧
      INTERFACE_TYPE.other 3 ≠ INTERFACE_TYPE.Isa ∧
      INTERFACE_TYPE.other 3 ≠ INTERFACE_TYPE.Eisa ∧
      HalGetInterruptVector jazzConsts (INTERFACE_TYPE.other 3) 4 5 6 = (0, 0, 0) :=
  ⟨by decide, by decide, by decide,
    unknown_interface_resolve jazzConsts (INTERFACE_TYPE.other 3) 4 5 6
      (by decide) (by decide) (by decide)⟩

/-- C10: the resolver treats the Isa and Eisa interface types identically
on every input. -/
theorem isa_eisa_identical (c : HalConsts) (n L v : Nat) :
    HalGetInterruptVector c INTERFACE_TYPE.Isa n L v =
      HalGetInterruptVector c INTERFACE_TYPE.Eisa n L v := by
  simp [HalGetInterruptVector]

/-- C4 counterexample: in `ULONG` arithmetic the returned vector is
`(L + EISA_VECTORS) % 2 ^ 32`, so at bus interrupt level `2 ^ 32 - 1` the
resolver returns 31 and not `2 ^ 32 - 1 + EISA_VECTORS` as the claim
states. -/
theorem eisa_resolve_claim_false :
    (HalGetInterruptVector jazzConsts INTERFACE_TYPE.Isa 0 (2 ^ 32 - 1) 0).1 ≠
      2 ^ 32 - 1 + jazzConsts.EISA_VECTORS := by
  rw [HalGetInterruptVector_eisa jazzConsts INTERFACE_TYPE.Isa 0 (2 ^ 32 - 1) 0 (Or.inl rfl)]
  norm_num [jazzConsts]

/-- C4 (amended): on the Isa/Eisa branch, resolving bus interrupt level 2
gives the same result as resolving level 9; for every level `L ≠ 2` the
returned vector is `(L + EISA_VECTORS) % 2 ^ 32` (`ULONG` wraparound,
equal to `L + EISA_VECTORS` whenever that sum fits in 32 bits); and on
every input of this branch the priority is `EISA_DEVICE_LEVEL` and the
affinity is `HalpEisaBusAffinity`, independent of the bus number and bus
interrupt vector. -/
theorem eisa_resolve (c : HalConsts) (it : INTERFACE_TYPE) (n L v : Nat)
    (hit : it = INTERFACE_TYPE.Isa ∨ it = INTERFACE_TYPE.Eisa) :
    HalGetInterruptVector c it n 2 v = HalGetInterruptVector c it n 9 v ∧
      (L ≠ 2 → HalGetInterruptVector c it n L v =
        ((L + c.EISA_VECTORS) % 2 ^ 32, c.EISA_DEVICE_LEVEL, c.HalpEisaBusAffinity)) ∧
      (HalGetInterruptVector c it n L v).2.1 = c.EISA_DEVICE_LEVEL ∧
      (HalGetInterruptVector c it n L v).2.2 = c.HalpEisaBusAffinity := by
  have h2 := HalGetInterruptVector_eisa c it n 2 v hit
  have h9 := HalGetInterruptVector_eisa c it n 9 v hit
  have hL2 := HalGetInterruptVector_eisa c it n L v hit
  refine ⟨?_, fun hL => ?_, ?_, ?_⟩
  · rw [h2, h9]
    norm_num
  · rw [hL2, if_neg hL]
  · rw [hL2]
  · rw [hL2]

/-- C4 witness: with the representative constants, level 2 resolves like
level 9, and level 3 resolves to vector `(3 + 32) % 2 ^ 32 = 35` with
priority `EISA_DEVICE_LEVEL` and the platform EISA affinity. -/
theorem eisa_resolve_witness :
    HalGetInterruptVector jazzConsts INTERFACE_TYPE.Isa 0 2 7 =
        HalGetInterruptVector jazzConsts INTERFACE_TYPE.Isa 0 9 7 ∧
      HalGetInterruptVector jazzConsts INTERFACE_TYPE.Isa 0 3 7 =
        ((3 + jazzConsts.EISA_VECTORS) % 2 ^ 32, jazzConsts.EISA_DEVICE_LEVEL,
          jazzConsts.HalpEisaBusAffinity) :=
  ⟨(eisa_resolve jazzConsts INTERFACE_TYPE.Isa 0 3 7 (Or.inl rfl)).1,
    (eisa_resolve jazzConsts INTERFACE_TYPE.Isa 0 3 7 (Or.inl rfl)).2.1 (by decide)⟩

/-! ## Interrupt Gate helper lemmas -/

/-- Mirror after `HalEnableSystemInterrupt`: the EISA branch never touches
it. -/
lemma enable_mirror (c : HalConsts) (V I : Nat) (mode : KINTERRUPT_MODE) (s : HalState) :
    (HalEnableSystemInterrupt c V I mode s).2.HalpBuiltinInterruptEnable =
      if c.DEVICE_VECTORS + 1 ≤ V ∧ V ≤ c.MAXIMUM_BUILTIN_VECTOR then
        (s.HalpBuiltinInterruptEnable ||| (1 <<< (V - c.DEVICE_VECTORS - 1))) % 2 ^ 16
      else s.HalpBuiltinInterruptEnable := by
  simp only [HalEnableSystemInterrupt]
  split <;> split <;> rfl

/-- Enable-register write trace after `HalEnableSystemInterrupt`. -/
lemma enable_writes (c : HalConsts) (V I : Nat) (mode : KINTERRUPT_MODE) (s : HalState) :
    (HalEnableSystemInterrupt c V I mode s).2.enableWrites =
      if c.DEVICE_VECTORS + 1 ≤ V ∧ V ≤ c.MAXIMUM_BUILTIN_VECTOR then
        ((s.HalpBuiltinInterruptEnable ||| (1 <<< (V - c.DEVICE_VECTORS - 1))) % 2 ^ 16)
          :: s.enableWrites
      else s.enableWrites := by
  simp only [HalEnableSystemInterrupt]
  split <;> split <;> rfl

/-- Mirror after `HalDisableSystemInterrupt`. -/
lemma disable_mirror (c : HalConsts) (V I : Nat) (s : HalState) :
    (HalDisableSystemInterrupt c V I s).HalpBuiltinInterruptEnable =
      if c.DEVICE_VECTORS + 1 ≤ V ∧ V ≤ c.MAXIMUM_BUILTIN_VECTOR then
        (s.HalpBuiltinInterruptEnable &&&
          ((2 ^ 16 - 1) ^^^ (1 <<< (V - c.DEVICE_VECTORS - 1)))) % 2 ^ 16
      else s.HalpBuiltinInterruptEnable := by
  simp only [HalDisableSystemInterrupt]
  split <;> split <;> rfl

/-- Enable-register write trace after `HalDisableSystemInterrupt`. -/
lemma disable_writes (c : HalConsts) (V I : Nat) (s : HalState) :
    (HalDisableSystemInterrupt c V I s).enableWrites =
      if c.DEVICE_VECTORS + 1 ≤ V ∧ V ≤ c.MAXIMUM_BUILTIN_VECTOR then
        ((s.HalpBuiltinInterruptEnable &&&
          ((2 ^ 16 - 1) ^^^ (1 <<< (V - c.DEVICE_VECTORS - 1)))) % 2 ^ 16)
          :: s.enableWrites
      else s.enableWrites := by
  simp only [HalDisableSystemInterrupt]
  split <;> split <;> rfl

/-- Bits of the mirror after the `|=` of the enable path: bit `k` is
forced on, every other bit keeps its value. -/
lemma testBit_or_bit (m k j : Nat) (hm : m < 2 ^ 16) (hk : k < 16) :
    ((m ||| (1 <<< k)) % 2 ^ 16).testBit j = (m.testBit j || decide (k = j)) := by
  have h1 : (1 : Nat) <<< k = 2 ^ k := by rw [Nat.shiftLeft_eq, one_mul]
  have hlt : m ||| (1 <<< k) < 2 ^ 16 := by
    rw [h1]
    exact Nat.or_lt_two_pow hm (Nat.pow_lt_pow_right (by norm_num) hk)
  rw [Nat.mod_eq_of_lt hlt, h1, Nat.testBit_or, Nat.testBit_two_pow]

/-- Bits of the mirror after the `&= ~` of the disable path: bit `k` is
forced off, every other bit keeps its value (bits at or above the
register width are off on both sides). -/
lemma testBit_and_not_bit (m k j : Nat) (hm : m < 2 ^ 16) :
    ((m &&& ((2 ^ 16 - 1) ^^^ (1 <<< k))) % 2 ^ 16).testBit j
      = (m.testBit j && !decide (k = j)) := by
  have h1 : (1 : Nat) <<< k = 2 ^ k := by rw [Nat.shiftLeft_eq, one_mul]
  have hle : m &&& ((2 ^ 16 - 1) ^^^ (1 <<< k)) < 2 ^ 16 :=
    lt_of_le_of_lt Nat.and_le_left hm
  rw [Nat.mod_eq_of_lt hle, h1, Nat.testBit_and, Nat.testBit_xor,
    Nat.testBit_two_pow_sub_one, Nat.testBit_two_pow]
  by_cases hjk : k = j
  · subst hjk
    by_cases hk16 : k < 16
    · simp [hk16]
    · have hbit : m.testBit k = false :=
        Nat.testBit_lt_two_pow
          (lt_of_lt_of_le hm (Nat.pow_le_pow_right (by norm_num) (le_of_not_lt hk16)))
      simp [hbit]
  · by_cases hj16 : j < 16
    · simp [hjk, hj16]
    · have hbit : m.testBit j = false :=
        Nat.testBit_lt_two_pow
          (lt_of_lt_of_le hm (Nat.pow_le_pow_right (by norm_num) (le_of_not_lt hj16)))
      simp [hbit]

/-- Setting a bit that is already set is the identity on a 16-bit value. -/
lemma or_bit_of_testBit (m k : Nat) (hm : m < 2 ^ 16) (hset : m.testBit k = true) :
    (m ||| (1 <<< k)) % 2 ^ 16 = m := by
  have h1 : (1 : Nat) <<< k = 2 ^ k := by rw [Nat.shiftLeft_eq, one_mul]
  have hor : m ||| (1 <<< k) = m := by
    rw [h1]
    refine Nat.eq_of_testBit_eq fun j => ?_
    rw [Nat.testBit_or, Nat.testBit_two_pow]
    by_cases hjk : k = j
    · subst hjk
      simp [hset]
    · simp [hjk]
  rw [hor, Nat.mod_eq_of_lt hm]

/-! ## Interrupt Gate claims -/

/-- C2: for a built-in-range vector whose bit index fits the 16-bit Enable
register, `HalEnableSystemInterrupt` sets and `HalDisableSystemInterrupt`
clears exactly bit `Vector - DEVICE_VECTORS - 1` of
`HalpBuiltinInterruptEnable`, leave every other bit of the mask unchanged,
and each performs exactly one register write, of the entire updated mask
value. -/
theorem builtin_mask_bit_effect (c : HalConsts) (Vector Irql Irql2 : Nat)
    (mode : KINTERRUPT_MODE) (s : HalState)
    (hlo : c.DEVICE_VECTORS + 1 ≤ Vector) (hhi : Vector ≤ c.MAXIMUM_BUILTIN_VECTOR)
    (hw : c.MAXIMUM_BUILTIN_VECTOR ≤ c.DEVICE_VECTORS + 16)
    (hm : s.HalpBuiltinInterruptEnable < 2 ^ 16) :
    ((HalEnableSystemInterrupt c Vector Irql mode s).2.HalpBuiltinInterruptEnable.testBit
        (Vector - c.DEVICE_VECTORS - 1) = true ∧
      (∀ j, j ≠ Vector - c.DEVICE_VECTORS - 1 →
        (HalEnableSystemInterrupt c Vector Irql mode s).2.HalpBuiltinInterruptEnable.testBit j
          = s.HalpBuiltinInterruptEnable.testBit j) ∧
      (HalEnableSystemInterrupt c Vector Irql mode s).2.enableWrites =
        (HalEnableSystemInterrupt c Vector Irql mode s).2.HalpBuiltinInterruptEnable
          :: s.enableWrites) ∧
    ((HalDisableSystemInterrupt c Vector Irql2 s).HalpBuiltinInterruptEnable.testBit
        (Vector - c.DEVICE_VECTORS - 1) = false ∧
      (∀ j, j ≠ Vector - c.DEVICE_VECTORS - 1 →
        (HalDisableSystemInterrupt c Vector Irql2 s).HalpBuiltinInterruptEnable.testBit j
          = s.HalpBuiltinInterruptEnable.testBit j) ∧
      (HalDisableSystemInterrupt c Vector Irql2 s).enableWrites =
        (HalDisableSystemInterrupt c Vector Irql2 s).HalpBuiltinInterruptEnable
          :: s.enableWrites) := by
  have hcond : c.DEVICE_VECTORS + 1 ≤ Vector ∧ Vector ≤ c.MAXIMUM_BUILTIN_VECTOR :=
    ⟨hlo, hhi⟩
  have hk : Vector - c.DEVICE_VECTORS - 1 < 16 := by omega
  have hme := enable_mirror c Vector Irql mode s
  have hwe := enable_writes c Vector Irql mode s
  have hmd := disable_mirror c Vector Irql2 s
  have hwd := disable_writes c Vector Irql2 s
  rw [if_pos hcond] at hme hwe hmd hwd
  refine ⟨⟨?_, fun j hj => ?_, ?_⟩, ⟨?_, fun j hj => ?_, ?_⟩⟩
  · rw [hme, testBit_or_bit _ _ _ hm hk]
    simp
  · have hkj : Vector - c.DEVICE_VECTORS - 1 ≠ j := fun h => hj h.symm
    rw [hme, testBit_or_bit _ _ _ hm hk]
    simp [hkj]
  · rw [hme, hwe]
  · rw [hmd, testBit_and_not_bit _ _ _ hm]
    simp
  · have hkj : Vector - c.DEVICE_VECTORS - 1 ≠ j := fun h => hj h.symm
    rw [hmd, testBit_and_not_bit _ _ _ hm]
    simp [hkj]
  · rw [hmd, hwd]

/-- C2 witness: enabling then (separately) disabling vector 17 from the
all-disabled state sets respectively clears bit 0 of the mask, with the
platform hypotheses checked on the representative constants. -/
theorem builtin_mask_bit_effect_witness :
    (jazzConsts.DEVICE_VECTORS + 1 ≤ 17 ∧ 17 ≤ jazzConsts.MAXIMUM_BUILTIN_VECTOR ∧
      jazzConsts.MAXIMUM_BUILTIN_VECTOR ≤ jazzConsts.DEVICE_VECTORS + 16 ∧
      initState.HalpBuiltinInterruptEnable < 2 ^ 16) ∧
    (HalEnableSystemInterrupt jazzConsts 17 0 KINTERRUPT_MODE.Latched
        initState).2.HalpBuiltinInterruptEnable.testBit
      (17 - jazzConsts.DEVICE_VECTORS - 1) = true ∧
    (HalDisableSystemInterrupt jazzConsts 17 0
        initState).HalpBuiltinInterruptEnable.testBit
      (17 - jazzConsts.DEVICE_VECTORS - 1) = false :=
  ⟨⟨by decide, by decide, by decide, by decide⟩,
    (builtin_mask_bit_effect jazzConsts 17 0 0 KINTERRUPT_MODE.Latched initState
      (by decide) (by decide) (by decide) (by decide)).1.1,
    (builtin_mask_bit_effect jazzConsts 17 0 0 KINTERRUPT_MODE.Latched initState
      (by decide) (by decide) (by decide) (by decide)).2.1⟩

/-- C1 counterexample: with vector 17 and a starting Enable Mask whose bit
for vector 17 is already set, enable followed by disable leaves that bit
clear, not at its pre-enable value, so the round-trip claim quantified
over every starting mask state is false. -/
theorem builtin_roundtrip_claim_false :
    ¬ ((HalDisableSystemInterrupt jazzConsts 17 0
          (HalEnableSystemInterrupt jazzConsts 17 0 KINTERRUPT_MODE.LevelSensitive
            { initState with HalpBuiltinInterruptEnable := 1 }).2).HalpBuiltinInterruptEnable.testBit 0
        = ({ initState with HalpBuiltinInterruptEnable := 1 }
            : HalState).HalpBuiltinInterruptEnable.testBit 0) := by
  decide

/-- C1 (amended): for a built-in-range vector, enable followed by disable
always leaves the vector's Enable Mask bit clear, hence restores the
pre-enable value exactly for the starting states in which the bit was
clear; and enabling an already-enabled vector leaves the Enable Mask
unchanged. -/
theorem builtin_roundtrip (c : HalConsts) (Vector Irql Irql2 : Nat)
    (mode : KINTERRUPT_MODE) (s : HalState)
    (hlo : c.DEVICE_VECTORS + 1 ≤ Vector) (hhi : Vector ≤ c.MAXIMUM_BUILTIN_VECTOR)
    (hm : s.HalpBuiltinInterruptEnable < 2 ^ 16) :
    ((HalDisableSystemInterrupt c Vector Irql2
        (HalEnableSystemInterrupt c Vector Irql mode s).2).HalpBuiltinInterruptEnable.testBit
      (Vector - c.DEVICE_VECTORS - 1) = false) ∧
    (s.HalpBuiltinInterruptEnable.testBit (Vector - c.DEVICE_VECTORS - 1) = false →
      (HalDisableSystemInterrupt c Vector Irql2
          (HalEnableSystemInterrupt c Vector Irql mode s).2).HalpBuiltinInterruptEnable.testBit
        (Vector - c.DEVICE_VECTORS - 1)
        = s.HalpBuiltinInterruptEnable.testBit (Vector - c.DEVICE_VECTORS - 1)) ∧
    (s.HalpBuiltinInterruptEnable.testBit (Vector - c.DEVICE_VECTORS - 1) = true →
      (HalEnableSystemInterrupt c Vector Irql mode s).2.HalpBuiltinInterruptEnable
        = s.HalpBuiltinInterruptEnable) := by
  have hcond : c.DEVICE_VECTORS + 1 ≤ Vector ∧ Vector ≤ c.MAXIMUM_BUILTIN_VECTOR :=
    ⟨hlo, hhi⟩
  have hme := enable_mirror c Vector Irql mode s
  have hmd := disable_mirror c Vector Irql2
    (HalEnableSystemInterrupt c Vector Irql mode s).2
  rw [if_pos hcond] at hme hmd
  have hme_lt :
      (HalEnableSystemInterrupt c Vector Irql mode s).2.HalpBuiltinInterruptEnable < 2 ^ 16 := by
    rw [hme]
    exact Nat.mod_lt _ (by norm_num)
  have hclear : (HalDisableSystemInterrupt c Vector Irql2
      (HalEnableSystemInterrupt c Vector Irql mode s).2).HalpBuiltinInterruptEnable.testBit
        (Vector - c.DEVICE_VECTORS - 1) = false := by
    rw [hmd, testBit_and_not_bit _ _ _ hme_lt]
    simp
  refine ⟨hclear, fun hpre => ?_, fun hset => ?_⟩
  · rw [hclear, hpre]
  · rw [hme, or_bit_of_testBit _ _ hm hset]

/-- C1 witness: from the all-disabled state, enabling then disabling
vector 17 leaves bit 0 of the mask clear, equal to its pre-enable value. -/
theorem builtin_roundtrip_witness :
    (jazzConsts.DEVICE_VECTORS + 1 ≤ 17 ∧ 17 ≤ jazzConsts.MAXIMUM_BUILTIN_VECTOR ∧
      initState.HalpBuiltinInterruptEnable < 2 ^ 16) ∧
    (HalDisableSystemInterrupt jazzConsts 17 0
        (HalEnableSystemInterrupt jazzConsts 17 0 KINTERRUPT_MODE.LevelSensitive
          initState).2).HalpBuiltinInterruptEnable.testBit
      (17 - jazzConsts.DEVICE_VECTORS - 1) = false :=
  ⟨⟨by decide, by decide, by decide⟩,
    (builtin_roundtrip jazzConsts 17 0 0 KINTERRUPT_MODE.LevelSensitive initState
      (by decide) (by decide) (by decide)).1⟩

/-- C3: if the in-memory mirror equals the value most recently written to
the Enable register, then after either gate operation it still does; and
whenever an operation mutates the mirror, the call pushes exactly the full
new mirror value onto the register write trace before returning. -/
theorem mirror_matches_register (c : HalConsts) (Vector Irql Irql2 : Nat)
    (mode : KINTERRUPT_MODE) (s : HalState)
    (h : s.enableWrites.head? = some s.HalpBuiltinInterruptEnable) :
    ((HalDisableSystemInterrupt c Vector Irql s).enableWrites.head?
        = some (HalDisableSystemInterrupt c Vector Irql s).HalpBuiltinInterruptEnable) ∧
    ((HalEnableSystemInterrupt c Vector Irql2 mode s).2.enableWrites.head?
        = some (HalEnableSystemInterrupt c Vector Irql2 mode s).2.HalpBuiltinInterruptEnable) ∧
    ((HalDisableSystemInterrupt c Vector Irql s).HalpBuiltinInterruptEnable
          ≠ s.HalpBuiltinInterruptEnable →
      (HalDisableSystemInterrupt c Vector Irql s).enableWrites =
        (HalDisableSystemInterrupt c Vector Irql s).HalpBuiltinInterruptEnable
          :: s.enableWrites) ∧
    ((HalEnableSystemInterrupt c Vector Irql2 mode s).2.HalpBuiltinInterruptEnable
          ≠ s.HalpBuiltinInterruptEnable →
      (HalEnableSystemInterrupt c Vector Irql2 mode s).2.enableWrites =
        (HalEnableSystemInterrupt c Vector Irql2 mode s).2.HalpBuiltinInterruptEnable
          :: s.enableWrites) := by
  have hmd := disable_mirror c Vector Irql s
  have hwd := disable_writes c Vector Irql s
  have hme := enable_mirror c Vector Irql2 mode s
  have hwe := enable_writes c Vector Irql2 mode s
  by_cases hcond : c.DEVICE_VECTORS + 1 ≤ Vector ∧ Vector ≤ c.MAXIMUM_BUILTIN_VECTOR
  · rw [if_pos hcond] at hmd hwd hme hwe
    refine ⟨?_, ?_, fun _ => ?_, fun _ => ?_⟩
    · rw [hmd, hwd]
      rfl
    · rw [hme, hwe]
      rfl
    · rw [hmd, hwd]
    · rw [hme, hwe]
  · rw [if_neg hcond] at hmd hwd hme hwe
    refine ⟨?_, ?_, fun hne => ?_, fun hne => ?_⟩
    · rw [hmd, hwd]
      exact h
    · rw [hme, hwe]
      exact h
    · exact absurd hmd hne
    · exact absurd hme hne

/-- C3 witness: starting from a state whose mirror is 0 and whose most
recent register write is 0, disabling vector 17 and enabling vector 17
each leave the mirror equal to the most recently written value. -/
theorem mirror_matches_register_witness :
    ({ initState with enableWrites := [0] } : HalState).enableWrites.head?
        = some ({ initState with enableWrites := [0] } : HalState).HalpBuiltinInterruptEnable ∧
    (HalDisableSystemInterrupt jazzConsts 17 0
          { initState with enableWrites := [0] }).enableWrites.head?
        = some (HalDisableSystemInterrupt jazzConsts 17 0
          { initState with enableWrites := [0] }).HalpBuiltinInterruptEnable ∧
    (HalEnableSystemInterrupt jazzConsts 17 0 KINTERRUPT_MODE.LevelSensitive
          { initState with enableWrites := [0] }).2.enableWrites.head?
        = some (HalEnableSystemInterrupt jazzConsts 17 0 KINTERRUPT_MODE.LevelSensitive
          { initState with enableWrites := [0] }).2.HalpBuiltinInterruptEnable :=
  ⟨by decide,
    (mirror_matches_register jazzConsts 17 0 0 KINTERRUPT_MODE.LevelSensitive
      { initState with enableWrites := [0] } (by decide)).1,
    (mirror_matches_register jazzConsts 17 0 0 KINTERRUPT_MODE.LevelSensitive
      { initState with enableWrites := [0] } (by decide)).2.1⟩

/-- C6: for a vector outside the built-in range whose (vector, IRQL) pair
also fails the EISA-branch test, `HalDisableSystemInterrupt` and
`HalEnableSystemInterrupt` return with the state completely unchanged —
no mask update, no Enable-register write and no call into the EISA
collaborator routines — and `HalEnableSystemInterrupt` returns `TRUE` on
every input whatsoever. -/
theorem out_of_range_noop (c : HalConsts) (Vector Irql : Nat)
    (mode : KINTERRUPT_MODE) (s : HalState)
    (h1 : ¬ (c.DEVICE_VECTORS + 1 ≤ Vector ∧ Vector ≤ c.MAXIMUM_BUILTIN_VECTOR))
    (h2 : ¬ (c.EISA_VECTORS ≤ Vector ∧ Vector < c.EISA_VECTORS + c.MAXIMUM_EISA_VECTOR ∧
      Irql = c.EISA_DEVICE_LEVEL)) :
    HalDisableSystemInterrupt c Vector Irql s = s ∧
    HalEnableSystemInterrupt c Vector Irql mode s = (true, s) ∧
    ∀ (V2 I2 : Nat) (m2 : KINTERRUPT_MODE) (s2 : HalState),
      (HalEnableSystemInterrupt c V2 I2 m2 s2).1 = true := by
  refine ⟨?_, ?_, fun V2 I2 m2 s2 => ?_⟩
  · simp only [HalDisableSystemInterrupt, if_neg h1, if_neg h2]
  · simp only [HalEnableSystemInterrupt, if_neg h1, if_neg h2]
  · simp only [HalEnableSystemInterrupt]

/-- C6 witness: vector 0 with IRQL 0 is outside both ranges of the
representative constants; both gate operations leave the all-disabled
state untouched and enable reports success. -/
theorem out_of_range_noop_witness :
    (¬ (jazzConsts.DEVICE_VECTORS + 1 ≤ 0 ∧ 0 ≤ jazzConsts.MAXIMUM_BUILTIN_VECTOR) ∧
      ¬ (jazzConsts.EISA_VECTORS ≤ 0 ∧
        0 < jazzConsts.EISA_VECTORS + jazzConsts.MAXIMUM_EISA_VECTOR ∧
        0 = jazzConsts.EISA_DEVICE_LEVEL)) ∧
    HalDisableSystemInterrupt jazzConsts 0 0 initState = initState ∧
    HalEnableSystemInterrupt jazzConsts 0 0 KINTERRUPT_MODE.Latched initState
      = (true, initState) :=
  ⟨⟨by decide, by decide⟩,
    (out_of_range_noop jazzConsts 0 0 KINTERRUPT_MODE.Latched initState
      (by decide) (by decide)).1,
    (out_of_range_noop jazzConsts 0 0 KINTERRUPT_MODE.Latched initState
      (by decide) (by decide)).2.1⟩

/-- C7: when the interprocessor facility exists (`_DUO_` defined),
`HalRequestIpi` performs exactly one write to the IPI request register and
the value written is `Mask` itself (an empty mask writes 0); when the
facility does not exist the call changes no state at all. -/
theorem requestIpi_write (Mask : Nat) (s : HalState) :
    HalRequestIpi true Mask s = { s with ipiWrites := Mask :: s.ipiWrites } ∧
    HalRequestIpi false Mask s = s := by
  constructor <;> simp [HalRequestIpi]
